import Mathlib

/-! DC motor controller over an H-bridge.

A shallow embedding of `src/dc_motor_controller_h-bridge.{h,cpp}`.

The class drives three lines: the optional enable line (`_pin_ena`) and the two
H-bridge inputs (`_pin_inA`, `_pin_inB`).  The hardware is modelled line by
line: each line remembers how it was configured and the last output call that
addressed it, with the arguments the source passes.  The build target
(`#if defined(ESP32)`) is the boolean parameter `esp32` of every method.
-/

namespace HBridge

/-! ## Arduino core: levels, modes, arithmetic helpers -/

/-- Logic level of `digitalWrite` (Arduino `LOW` and `HIGH`). -/
inductive Level
  | LOW
  | HIGH
  deriving DecidableEq, Repr

/-- Pin mode given to `pinMode`; the source only ever passes `OUTPUT`. -/
inductive PinMode
  | OUTPUT
  deriving DecidableEq, Repr

/-- Arduino core macro `constrain(amt, low, high)`:
`((amt)<(low)?(low):((amt)>(high)?(high):(amt)))`. -/
def constrain (amt low high : Int) : Int :=
  if amt < low then low else if amt > high then high else amt

/-- Arduino core macro `abs(x)`: `((x)>0?(x):-(x))`. -/
def abs (x : Int) : Int :=
  if x > 0 then x else -x

/-- Arduino core function `map` (WMath.cpp):
`return (x - in_min) * (out_max - out_min) / (in_max - in_min) + out_min;`
on `long`, where `/` is C integer division (truncation toward zero). -/
def map (x in_min in_max out_min out_max : Int) : Int :=
  Int.tdiv ((x - in_min) * (out_max - out_min)) (in_max - in_min) + out_min

/-! ## Hardware lines -/

/-- An output call of the Arduino core, with the arguments it was given. -/
inductive OutCall
  | digitalWrite (pin : Int) (val : Level)
  | analogWrite (pin : Int) (val : Int)
  | ledcWrite (channel : Nat) (duty : Int)
  deriving DecidableEq, Repr

/-- State of one line: the last `pinMode`, the last `ledcSetup`
(channel, frequency, resolution), the current `ledcAttachPin` binding
(pin, channel) and the last output call that addressed the line. -/
structure Line where
  mode : Option (Int × PinMode)
  setup : Option (Nat × Nat × Nat)
  attached : Option (Int × Nat)
  out : Option OutCall
  deriving DecidableEq, Repr

/-- A line nothing has touched yet. -/
def Line.fresh : Line :=
  { mode := none, setup := none, attached := none, out := none }

/-- The three lines the controller owns. -/
structure Hardware where
  ena : Line
  inA : Line
  inB : Line
  deriving DecidableEq, Repr

/-- Hardware before any call of the library. -/
def Hardware.fresh : Hardware :=
  { ena := Line.fresh, inA := Line.fresh, inB := Line.fresh }

/-- Arduino `pinMode(pin, mode)` on the line it addresses. -/
def pinMode (pin : Int) (mode : PinMode) (l : Line) : Line :=
  { l with mode := some (pin, mode) }

/-- Arduino `digitalWrite(pin, val)` on the line it addresses. -/
def digitalWrite (pin : Int) (val : Level) (l : Line) : Line :=
  { l with out := some (OutCall.digitalWrite pin val) }

/-- Arduino `analogWrite(pin, val)` on the line it addresses. -/
def analogWrite (pin : Int) (val : Int) (l : Line) : Line :=
  { l with out := some (OutCall.analogWrite pin val) }

/-- ESP32 `ledcSetup(channel, freq, resolution)` on the line the channel serves. -/
def ledcSetup (channel freq reso : Nat) (l : Line) : Line :=
  { l with setup := some (channel, freq, reso) }

/-- ESP32 `ledcAttachPin(pin, channel)`. -/
def ledcAttachPin (pin : Int) (channel : Nat) (l : Line) : Line :=
  { l with attached := some (pin, channel) }

/-- ESP32 `ledcDetachPin(pin)`. -/
def ledcDetachPin (_pin : Int) (l : Line) : Line :=
  { l with attached := none }

/-- ESP32 `ledcWrite(channel, duty)` on the line the channel serves. -/
def ledcWrite (channel : Nat) (duty : Int) (l : Line) : Line :=
  { l with out := some (OutCall.ledcWrite channel duty) }

/-! ## The class -/

/-- Data members of `DCMotorControllerHBridge` (header, lines 69-83).
`_pin_ena` is an `int8_t`, the two input pins and the channels are `uint8_t`,
`_speed` is an `int`.  The two channel members exist only under `ESP32`; on
other targets the model keeps 0 there and never reads them. -/
structure DCMotorControllerHBridge where
  _pwm_channel_freq : Nat
  _pwm_channel_reso : Nat
  _pin_ena : Int
  _pin_inA : Nat
  _pin_inB : Nat
  _speed : Int
  _reverse : Bool
  _pwm_channel_inA : Nat
  _pwm_channel_inB : Nat
  deriving DecidableEq, Repr

/-- Member constant `static constexpr int8_t NO_PIN = -1`. -/
def NO_PIN : Int := -1

/-- A controller object together with the lines it drives. -/
structure State where
  motor : DCMotorControllerHBridge
  hw : Hardware
  deriving DecidableEq, Repr

/-- Value of the token `_pin_ena` inside `#if`: it is a data member, not a
macro, and the preprocessor replaces every identifier left after macro
expansion by 0. -/
def pp_pin_ena : Int := 0

/-- Value of the token `NO_PIN` inside `#if`: a `constexpr` member, not a macro,
hence 0 for the preprocessor. -/
def pp_NO_PIN : Int := 0

/-- The condition of `#if (_pin_ena != NO_PIN)` (cpp lines 50, 88, 142), decided
by the preprocessor once and for all, before any object exists. -/
def ena_guard : Bool := decide (pp_pin_ena ≠ pp_NO_PIN)

/-- Constructor with enable pin (cpp lines 11-23); default member initialisers
give frequency 25000 and resolution 8. -/
def mkEna (esp32 : Bool) (ena : Int) (inA inB : Nat) (reverse : Bool) :
    DCMotorControllerHBridge :=
  { _pwm_channel_freq := 25000
    _pwm_channel_reso := 8
    _pin_ena := ena
    _pin_inA := inA
    _pin_inB := inB
    _reverse := reverse
    _speed := 0
    _pwm_channel_inA := if esp32 then 0 else 0
    _pwm_channel_inB := if esp32 then 1 else 0 }

/-- Constructor without enable pin (cpp lines 32-44). -/
def mkNoEna (esp32 : Bool) (inA inB : Nat) (reverse : Bool) :
    DCMotorControllerHBridge :=
  { _pwm_channel_freq := 25000
    _pwm_channel_reso := 8
    _pin_ena := NO_PIN
    _pin_inA := inA
    _pin_inB := inB
    _reverse := reverse
    _speed := 0
    _pwm_channel_inA := if esp32 then 0 else 0
    _pwm_channel_inB := if esp32 then 1 else 0 }

/-- Method `begin()` (cpp lines 49-70). -/
def begin (esp32 : Bool) (s : State) : State :=
  let m := s.motor
  let hw := s.hw
  let hw :=
    if ena_guard then
      { hw with ena := digitalWrite m._pin_ena Level.LOW (pinMode m._pin_ena PinMode.OUTPUT hw.ena) }
    else hw
  let hw :=
    if esp32 then
      { hw with
        inA := ledcAttachPin m._pin_inA m._pwm_channel_inA
                (ledcSetup m._pwm_channel_inA m._pwm_channel_freq m._pwm_channel_reso hw.inA)
        inB := ledcAttachPin m._pin_inB m._pwm_channel_inB
                (ledcSetup m._pwm_channel_inB m._pwm_channel_freq m._pwm_channel_reso hw.inB) }
    else
      { hw with
        inA := digitalWrite m._pin_inA Level.LOW (pinMode m._pin_inA PinMode.OUTPUT hw.inA)
        inB := digitalWrite m._pin_inB Level.LOW (pinMode m._pin_inB PinMode.OUTPUT hw.inB) }
  { motor := m, hw := hw }

/-- Method `end()` (cpp lines 75-80); the trailing underscore avoids the keyword. -/
def end_ (esp32 : Bool) (s : State) : State :=
  let m := s.motor
  let hw := s.hw
  let hw :=
    if esp32 then
      { hw with
        inA := ledcDetachPin m._pin_inA hw.inA
        inB := ledcDetachPin m._pin_inB hw.inB }
    else hw
  { motor := m, hw := hw }

/-- Method `setSpeed(int speed_percent)` (cpp lines 87-124). -/
def setSpeed (esp32 : Bool) (speed_percent : Int) (s : State) : State :=
  let m := s.motor
  let hw := s.hw
  let hw :=
    if ena_guard then
      { hw with ena := digitalWrite m._pin_ena Level.HIGH hw.ena }
    else hw
  let speed_percent := constrain speed_percent (-100) 100
  let m := { m with _speed := speed_percent }
  let forward : Bool := decide (speed_percent ≥ 0)
  let forward := if m._reverse then !forward else forward
  let pwm_value := map (abs speed_percent) 0 100 0 255
  let hw :=
    if esp32 then
      if speed_percent = 0 then
        { hw with
          inA := ledcWrite m._pwm_channel_inA 0 hw.inA
          inB := ledcWrite m._pwm_channel_inB 0 hw.inB }
      else if forward then
        { hw with
          inA := ledcWrite m._pwm_channel_inA pwm_value hw.inA
          inB := ledcWrite m._pwm_channel_inB 0 hw.inB }
      else
        { hw with
          inA := ledcWrite m._pwm_channel_inA 0 hw.inA
          inB := ledcWrite m._pwm_channel_inB pwm_value hw.inB }
    else
      if speed_percent = 0 then
        { hw with
          inA := analogWrite m._pin_inA 0 hw.inA
          inB := analogWrite m._pin_inB 0 hw.inB }
      else if forward then
        { hw with
          inA := analogWrite m._pin_inA pwm_value hw.inA
          inB := digitalWrite m._pin_inB Level.LOW hw.inB }
      else
        { hw with
          inA := digitalWrite m._pin_inA Level.LOW hw.inA
          inB := analogWrite m._pin_inB pwm_value hw.inB }
  { motor := m, hw := hw }

/-- Method `getCurrentSpeed() const` (cpp lines 131-133). -/
def getCurrentSpeed (s : State) : Int :=
  s.motor._speed

/-- Method `stop()` (cpp lines 141-154). -/
def stop (esp32 : Bool) (s : State) : State :=
  let m := s.motor
  let hw := s.hw
  let hw :=
    if ena_guard then
      { hw with ena := digitalWrite m._pin_ena Level.LOW hw.ena }
    else hw
  let hw :=
    if esp32 then
      { hw with
        inA := ledcWrite m._pwm_channel_inA 0 hw.inA
        inB := ledcWrite m._pwm_channel_inB 0 hw.inB }
    else
      { hw with
        inA := digitalWrite m._pin_inA Level.LOW hw.inA
        inB := digitalWrite m._pin_inB Level.LOW hw.inB }
  { motor := { m with _speed := 0 }, hw := hw }

/-! ## Observations -/

/-- Duty an output call puts on its line, on the 8-bit scale: a PWM write gives
its value, a digital `LOW` is duty 0 and a digital `HIGH` is full duty. -/
def OutCall.duty : OutCall → Int
  | OutCall.digitalWrite _ Level.LOW => 0
  | OutCall.digitalWrite _ Level.HIGH => 255
  | OutCall.analogWrite _ v => v
  | OutCall.ledcWrite _ d => d

/-- Duty carried by a line; a line no output call has addressed carries none. -/
def Line.duty (l : Line) : Int :=
  match l.out with
  | none => 0
  | some c => c.duty

/-- Duty on control line A. -/
def dutyA (s : State) : Int := s.hw.inA.duty

/-- Duty on control line B. -/
def dutyB (s : State) : Int := s.hw.inB.duty

/-- The pair (duty on line A, duty on line B). -/
def lineDuties (s : State) : Int × Int := (dutyA s, dutyB s)

/-- Level the enable line is driven to: `none` when no call has written it. -/
def enaLevel (s : State) : Option Level :=
  match s.hw.ena.out with
  | some (OutCall.digitalWrite _ v) => some v
  | _ => none

/-- State right after construction and before any method call. -/
def initial (m : DCMotorControllerHBridge) : State :=
  { motor := m, hw := Hardware.fresh }

/-- Duty magnitude `pwm_value` that `setSpeed` computes for a request
(cpp lines 92 and 99: `constrain`, then `map(abs(..), 0, 100, 0, 255)`). -/
def pwmValue (speed_percent : Int) : Int :=
  map (abs (constrain speed_percent (-100) 100)) 0 100 0 255

/-- The bench set-up of the spec scenarios: enable pin 9, control pins 13 and 14,
constructed, then `begin()`. -/
def bench (esp32 reverse : Bool) : State :=
  begin esp32 (initial (mkEna esp32 9 13 14 reverse))

/-- A call of one of the five public methods. -/
inductive Op
  | begin
  | end_
  | setSpeed (speed_percent : Int)
  | stop
  | getCurrentSpeed
  deriving DecidableEq, Repr

/-- Effect of one method call on the state; `getCurrentSpeed` is `const` and only
returns a value. -/
def step (esp32 : Bool) (s : State) : Op → State
  | Op.begin => begin esp32 s
  | Op.end_ => end_ esp32 s
  | Op.setSpeed p => setSpeed esp32 p s
  | Op.stop => stop esp32 s
  | Op.getCurrentSpeed => s

/-- State after a finite sequence of method calls, first call first. -/
def run (esp32 : Bool) (ops : List Op) (s : State) : State :=
  ops.foldl (step esp32) s

/-- Duty magnitude the control lines carry: the larger of the two duties. -/
def dutyMagnitude (s : State) : Int := max (dutyA s) (dutyB s)

/-- A duty pair of the informal state machine: each duty within [0, 255] and at
most one of the two non-zero (A-active, B-active or neither). -/
def exclusiveDuties (d : Int × Int) : Prop :=
  (0 ≤ d.1 ∧ d.1 ≤ 255) ∧ (0 ≤ d.2 ∧ d.2 ≤ 255) ∧ (d.1 = 0 ∨ d.2 = 0)

instance (d : Int × Int) : Decidable (exclusiveDuties d) := by
  unfold exclusiveDuties; infer_instance

/-- What the constructor arguments fix in a controller object: every member
except the stored speed. -/
def construction (m : DCMotorControllerHBridge) : DCMotorControllerHBridge :=
  { m with _speed := 0 }

/-! ## Basic facts about the embedding -/

theorem ena_guard_false : ena_guard = false := by decide

theorem constrain_eq_max_min (p : Int) :
    constrain p (-100) 100 = max (-100) (min 100 p) := by
  unfold constrain
  split_ifs <;> omega

theorem speed_setSpeed (esp32 : Bool) (p : Int) (s : State) :
    (setSpeed esp32 p s).motor._speed = constrain p (-100) 100 := rfl

/-- The two duties `setSpeed` leaves on the control lines, on either target. -/
theorem lineDuties_setSpeed (esp32 : Bool) (p : Int) (s : State) :
    lineDuties (setSpeed esp32 p s) =
      if constrain p (-100) 100 = 0 then (0, 0)
      else if (decide (constrain p (-100) 100 ≥ 0) != s.motor._reverse) then (pwmValue p, 0)
      else (0, pwmValue p) := by
  cases esp32 <;> cases hr : s.motor._reverse <;>
    by_cases h0 : constrain p (-100) 100 = 0 <;>
    by_cases hf : constrain p (-100) 100 ≥ 0 <;>
    simp [setSpeed, lineDuties, dutyA, dutyB, Line.duty, OutCall.duty, ledcWrite, analogWrite,
      digitalWrite, ena_guard_false, pwmValue, h0, hf, hr]

theorem abs_constrain (p : Int) :
    abs (constrain p (-100) 100) = min 100 (max p (-p)) := by
  unfold abs constrain
  split_ifs <;> omega

/-- The magnitude in closed form: `min(100, |p|) * 255 / 100`, rounded down. -/
theorem pwmValue_eq (p : Int) :
    pwmValue p = (min 100 (max p (-p))) * 255 / 100 := by
  unfold pwmValue map
  rw [abs_constrain]
  have h : (0 : Int) ≤ (min 100 (max p (-p)) - 0) * (255 - 0) := by
    have : (0 : Int) ≤ min 100 (max p (-p)) := by omega
    nlinarith
  rw [Int.tdiv_eq_ediv h (by decide)]
  simp

/-! ## Speed bookkeeping and duty of `setSpeed` -/

/-- C1: on either target and from every state, `getCurrentSpeed()` right after
`setSpeed(p)` is `max(-100, min(100, p))`; a request of 150 reports 100 and a
request of -999 reports -100. -/
theorem setSpeed_getCurrentSpeed_clamp :
    (∀ (esp32 : Bool) (p : Int) (s : State),
        getCurrentSpeed (setSpeed esp32 p s) = max (-100) (min 100 p)) ∧
    (∀ (esp32 : Bool) (s : State), getCurrentSpeed (setSpeed esp32 150 s) = 100) ∧
    (∀ (esp32 : Bool) (s : State), getCurrentSpeed (setSpeed esp32 (-999) s) = -100) := by
  refine ⟨fun esp32 p s => ?_, fun esp32 s => ?_, fun esp32 s => ?_⟩
  · show (setSpeed esp32 p s).motor._speed = _
    rw [speed_setSpeed, constrain_eq_max_min]
  · show (setSpeed esp32 150 s).motor._speed = _
    rw [speed_setSpeed]; decide
  · show (setSpeed esp32 (-999) s).motor._speed = _
    rw [speed_setSpeed]; decide

/-- C2 fails as stated: on the bench controller (not reversed) `setSpeed(1)` puts
duty 2 on line A, while the nearest integer to 1/100 * 255 = 2.55 is 3. -/
theorem setSpeed_duty_not_rounded :
    ¬ (dutyA (setSpeed false 1 (bench false false)) = round ((1 : ℚ) / 100 * 255) ∧
       dutyB (setSpeed false 1 (bench false false)) = 0) := by
  have hr : round ((1 : ℚ) / 100 * 255) = 3 := by
    rw [round_eq]; norm_num [Int.floor_eq_iff]
  have hd : dutyA (setSpeed false 1 (bench false false)) = 2 := by decide
  rw [hr, hd]
  decide

/-- C2 as amended: for 0 < p <= 100 on a controller that is not reversed,
`setSpeed(p)` puts on line A the exact rational p/100 * 255 rounded down to an
integer, and duty 0 on line B. -/
theorem setSpeed_forward_duty_floor (esp32 : Bool) (p : Int) (s : State)
    (hpos : 0 < p) (hle : p ≤ 100) (hrev : s.motor._reverse = false) :
    dutyA (setSpeed esp32 p s) = ⌊(p : ℚ) / 100 * 255⌋ ∧ dutyB (setSpeed esp32 p s) = 0 := by
  have h := lineDuties_setSpeed esp32 p s
  have hc : constrain p (-100) 100 = p := by
    rw [constrain_eq_max_min]; omega
  have hne : p ≠ 0 := by omega
  have hge : p ≥ 0 := by omega
  simp only [hc, hrev, hne, hge, if_false, decide_True, bne_self_eq_false, Bool.true_bne,
    Bool.not_false, if_true, lineDuties, Prod.mk.injEq] at h
  obtain ⟨hA, hB⟩ := h
  refine ⟨?_, hB⟩
  rw [hA, pwmValue_eq]
  have hq : (p : ℚ) / 100 * 255 = ((p * 255 : Int) : ℚ) / ((100 : ℕ) : ℚ) := by
    push_cast; ring
  rw [hq, Rat.floor_intCast_div_natCast]
  have hm : min 100 (max p (-p)) = p := by omega
  rw [hm]; rfl

/-- Witness for C2 as amended, at p = 50 on the bench controller: duty 127. -/
theorem setSpeed_forward_duty_floor_witness :
    ((0 : Int) < 50 ∧ (50 : Int) ≤ 100 ∧ (bench false false).motor._reverse = false) ∧
    (dutyA (setSpeed false 50 (bench false false)) = ⌊((50 : Int) : ℚ) / 100 * 255⌋ ∧
      dutyB (setSpeed false 50 (bench false false)) = 0) :=
  ⟨⟨by decide, by decide, rfl⟩,
   setSpeed_forward_duty_floor false 50 (bench false false) (by decide) (by decide) rfl⟩

/-- C3: for every request, the duties `setSpeed` leaves on a reversed controller
are those it leaves on the same controller not reversed, with line A and line B
exchanged; reversed, `setSpeed(40)` puts 0 on line A and the duty on line B. -/
theorem setSpeed_reverse_swaps_lines :
    (∀ (esp32 : Bool) (p : Int) (m : DCMotorControllerHBridge) (hw : Hardware),
        lineDuties (setSpeed esp32 p { motor := { m with _reverse := true }, hw := hw }) =
          Prod.swap
            (lineDuties (setSpeed esp32 p { motor := { m with _reverse := false }, hw := hw }))) ∧
    (∀ (esp32 : Bool), lineDuties (setSpeed esp32 40 (bench esp32 true)) = (0, 102)) := by
  refine ⟨fun esp32 p m hw => ?_, fun esp32 => ?_⟩
  · rw [lineDuties_setSpeed, lineDuties_setSpeed]
    by_cases h0 : constrain p (-100) 100 = 0 <;>
      by_cases hf : constrain p (-100) 100 ≥ 0 <;> simp [h0, hf]
  · cases esp32 <;> decide

/-- No `setSpeed` call changes the enable line: the block under
`#if (_pin_ena != NO_PIN)` is not compiled. -/
theorem ena_setSpeed (esp32 : Bool) (p : Int) (s : State) :
    (setSpeed esp32 p s).hw.ena = s.hw.ena := by
  cases esp32 <;> cases hr : s.motor._reverse <;>
    by_cases h0 : constrain p (-100) 100 = 0 <;>
    by_cases hf : constrain p (-100) 100 ≥ 0 <;>
    simp [setSpeed, ena_guard_false, h0, hf, hr]

/-- No `stop` call changes the enable line either. -/
theorem ena_stop (esp32 : Bool) (s : State) : (stop esp32 s).hw.ena = s.hw.ena := by
  cases esp32 <;> simp [stop, ena_guard_false]

/-- C6, the code at the failing input: on the controller built with enable pin 9,
after `begin()`, `setSpeed(50)` stores 50 and drives line A, yet the enable line
has received no call at all, so it is not driven high; in fact no `setSpeed` call
ever changes the enable line. -/
theorem setSpeed_leaves_enable_unwritten :
    (bench false false).motor._pin_ena ≠ NO_PIN ∧
    getCurrentSpeed (setSpeed false 50 (bench false false)) = 50 ∧
    dutyA (setSpeed false 50 (bench false false)) = 127 ∧
    enaLevel (setSpeed false 50 (bench false false)) = none ∧
    enaLevel (setSpeed false 50 (bench false false)) ≠ some Level.HIGH ∧
    (∀ (esp32 : Bool) (p : Int) (s : State), (setSpeed esp32 p s).hw.ena = s.hw.ena) := by
  exact ⟨by decide, by decide, by decide, by decide, by decide, ena_setSpeed⟩

/-! ## `stop` -/

theorem speed_stop (esp32 : Bool) (s : State) : (stop esp32 s).motor._speed = 0 := rfl

theorem lineDuties_stop (esp32 : Bool) (s : State) : lineDuties (stop esp32 s) = (0, 0) := by
  cases esp32 <;>
    simp [stop, lineDuties, dutyA, dutyB, Line.duty, OutCall.duty, ledcWrite, digitalWrite,
      ena_guard_false]

/-- C8, the code at the failing input: on the controller built with enable pin 9,
after `begin()` and `setSpeed(50)`, `stop()` zeroes both control lines and the
speed but issues no call on the enable line, which therefore is not driven low;
in fact no `stop` call ever changes the enable line. -/
theorem stop_leaves_enable_unwritten :
    (bench false false).motor._pin_ena ≠ NO_PIN ∧
    lineDuties (stop false (setSpeed false 50 (bench false false))) = (0, 0) ∧
    enaLevel (stop false (setSpeed false 50 (bench false false))) = none ∧
    enaLevel (stop false (setSpeed false 50 (bench false false))) ≠ some Level.LOW ∧
    (∀ (esp32 : Bool) (s : State), (stop esp32 s).hw.ena = s.hw.ena) := by
  exact ⟨by decide, by decide, by decide, by decide, ena_stop⟩

theorem speed_step_range (esp32 : Bool) (s : State) (op : Op)
    (h : -100 ≤ s.motor._speed ∧ s.motor._speed ≤ 100) :
    -100 ≤ (step esp32 s op).motor._speed ∧ (step esp32 s op).motor._speed ≤ 100 := by
  cases op with
  | begin => exact h
  | end_ => exact h
  | setSpeed p =>
    show -100 ≤ (setSpeed esp32 p s).motor._speed ∧ (setSpeed esp32 p s).motor._speed ≤ 100
    rw [speed_setSpeed, constrain_eq_max_min]; omega
  | stop =>
    show -100 ≤ (stop esp32 s).motor._speed ∧ (stop esp32 s).motor._speed ≤ 100
    rw [speed_stop]; omega
  | getCurrentSpeed => exact h

theorem speed_run_range (esp32 : Bool) (ops : List Op) :
    ∀ s : State, (-100 ≤ s.motor._speed ∧ s.motor._speed ≤ 100) →
      -100 ≤ (run esp32 ops s).motor._speed ∧ (run esp32 ops s).motor._speed ≤ 100 := by
  induction ops with
  | nil => intro s h; exact h
  | cons op rest ih =>
    intro s h
    show -100 ≤ (run esp32 rest (step esp32 s op)).motor._speed ∧
      (run esp32 rest (step esp32 s op)).motor._speed ≤ 100
    exact ih _ (speed_step_range esp32 s op h)

/-- C10: the stored speed is 0 right after either constructor, and after any
finite sequence of `begin`, `end`, `setSpeed(p)` (p any integer), `stop` and
`getCurrentSpeed` calls on a freshly constructed controller it lies in
[-100, 100], on either target. -/
theorem speed_in_range_of_reachable (esp32 : Bool) (ena : Int) (inA inB : Nat) (reverse : Bool)
    (ops : List Op) :
    getCurrentSpeed (initial (mkEna esp32 ena inA inB reverse)) = 0 ∧
    getCurrentSpeed (initial (mkNoEna esp32 inA inB reverse)) = 0 ∧
    (-100 ≤ getCurrentSpeed (run esp32 ops (initial (mkEna esp32 ena inA inB reverse))) ∧
      getCurrentSpeed (run esp32 ops (initial (mkEna esp32 ena inA inB reverse))) ≤ 100) ∧
    (-100 ≤ getCurrentSpeed (run esp32 ops (initial (mkNoEna esp32 inA inB reverse))) ∧
      getCurrentSpeed (run esp32 ops (initial (mkNoEna esp32 inA inB reverse))) ≤ 100) := by
  refine ⟨rfl, rfl, ?_, ?_⟩
  · exact speed_run_range esp32 ops _ ⟨show (-100 : Int) ≤ 0 by decide, show (0 : Int) ≤ 100 by decide⟩
  · exact speed_run_range esp32 ops _ ⟨show (-100 : Int) ≤ 0 by decide, show (0 : Int) ≤ 100 by decide⟩

/-! ## `begin` and the constructors -/

/-- No `begin` call changes the enable line: its block under
`#if (_pin_ena != NO_PIN)` is not compiled. -/
theorem ena_begin (esp32 : Bool) (s : State) : (begin esp32 s).hw.ena = s.hw.ena := by
  cases esp32 <;> simp [begin, ena_guard_false]

theorem lineDuties_begin (esp32 : Bool) (s : State) :
    lineDuties (begin esp32 s) = if esp32 then lineDuties s else (0, 0) := by
  cases esp32 <;>
    simp [begin, lineDuties, dutyA, dutyB, Line.duty, OutCall.duty, ledcAttachPin, ledcSetup,
      digitalWrite, pinMode, ena_guard_false]

theorem lineDuties_end_ (esp32 : Bool) (s : State) :
    lineDuties (end_ esp32 s) = lineDuties s := by
  cases esp32 <;> simp [end_, lineDuties, dutyA, dutyB, Line.duty, ledcDetachPin]

/-- C11, the code at the failing input: on the generic target, `begin()` on the
controller built with enable pin 9 and control pins 13 and 14 makes both control
pins outputs driven low (duty 0 on both lines), but the enable line is left as
construction left it, with no `pinMode` and no write: it is not configured as an
output and not driven low.  No `begin` call ever changes the enable line. -/
theorem begin_leaves_enable_unconfigured :
    (initial (mkEna false 9 13 14 false)).motor._pin_ena ≠ NO_PIN ∧
    (begin false (initial (mkEna false 9 13 14 false))).hw.inA =
      { mode := some (13, PinMode.OUTPUT), setup := none, attached := none,
        out := some (OutCall.digitalWrite 13 Level.LOW) } ∧
    (begin false (initial (mkEna false 9 13 14 false))).hw.inB =
      { mode := some (14, PinMode.OUTPUT), setup := none, attached := none,
        out := some (OutCall.digitalWrite 14 Level.LOW) } ∧
    lineDuties (begin false (initial (mkEna false 9 13 14 false))) = (0, 0) ∧
    (begin false (initial (mkEna false 9 13 14 false))).hw.ena = Line.fresh ∧
    (begin false (initial (mkEna false 9 13 14 false))).hw.ena.mode ≠ some (9, PinMode.OUTPUT) ∧
    enaLevel (begin false (initial (mkEna false 9 13 14 false))) ≠ some Level.LOW ∧
    (∀ (esp32 : Bool) (s : State), (begin esp32 s).hw.ena = s.hw.ena) := by
  exact ⟨by decide, by decide, by decide, by decide, by decide, by decide, by decide, ena_begin⟩

/-- C12: for all control pins and reverse flag, the three-argument constructor
builds the same object as the four-argument constructor given -1 as enable pin:
enable pin `NO_PIN`, the same control pins and reverse flag, speed 0; hence
every sequence of later method calls leaves the same state, on either target. -/
theorem mkNoEna_eq_mkEna_no_pin (esp32 : Bool) (inA inB : Nat) (reverse : Bool) :
    mkNoEna esp32 inA inB reverse = mkEna esp32 (-1) inA inB reverse ∧
    (mkNoEna esp32 inA inB reverse)._pin_ena = NO_PIN ∧
    (mkNoEna esp32 inA inB reverse)._pin_inA = inA ∧
    (mkNoEna esp32 inA inB reverse)._pin_inB = inB ∧
    (mkNoEna esp32 inA inB reverse)._reverse = reverse ∧
    (mkNoEna esp32 inA inB reverse)._speed = 0 ∧
    (∀ ops : List Op,
      run esp32 ops (initial (mkNoEna esp32 inA inB reverse)) =
        run esp32 ops (initial (mkEna esp32 (-1) inA inB reverse))) := by
  have h : mkNoEna esp32 inA inB reverse = mkEna esp32 (-1) inA inB reverse := rfl
  refine ⟨h, rfl, rfl, rfl, rfl, rfl, fun ops => ?_⟩
  rw [h]

/-! ## Bounds on the duty -/

theorem pwmValue_bounds (p : Int) : 0 ≤ pwmValue p ∧ pwmValue p ≤ 255 := by
  rw [pwmValue_eq]
  omega

theorem pwmValue_pos (p : Int) (hp : p ≠ 0) : 2 ≤ pwmValue p := by
  rw [pwmValue_eq]
  omega

theorem pwmValue_zero : pwmValue 0 = 0 := by decide

theorem exclusiveDuties_setSpeed (esp32 : Bool) (p : Int) (s : State) :
    exclusiveDuties (lineDuties (setSpeed esp32 p s)) := by
  have hb := pwmValue_bounds p
  rw [lineDuties_setSpeed]
  unfold exclusiveDuties
  split_ifs <;> simp <;> omega

theorem exclusiveDuties_step (esp32 : Bool) (s : State) (op : Op)
    (h : exclusiveDuties (lineDuties s)) :
    exclusiveDuties (lineDuties (step esp32 s op)) := by
  cases op with
  | begin =>
    show exclusiveDuties (lineDuties (begin esp32 s))
    rw [lineDuties_begin]
    cases esp32
    · show exclusiveDuties (0, 0)
      decide
    · exact h
  | end_ =>
    show exclusiveDuties (lineDuties (end_ esp32 s))
    rw [lineDuties_end_]; exact h
  | setSpeed p => exact exclusiveDuties_setSpeed esp32 p s
  | stop =>
    show exclusiveDuties (lineDuties (stop esp32 s))
    rw [lineDuties_stop]; decide
  | getCurrentSpeed => exact h

theorem exclusiveDuties_run (esp32 : Bool) (ops : List Op) :
    ∀ s : State, exclusiveDuties (lineDuties s) →
      exclusiveDuties (lineDuties (run esp32 ops s)) := by
  induction ops with
  | nil => intro s h; exact h
  | cons op rest ih =>
    intro s h
    show exclusiveDuties (lineDuties (run esp32 rest (step esp32 s op)))
    exact ih _ (exclusiveDuties_step esp32 s op h)

/-- C13: after any finite sequence of method calls (`begin`, `setSpeed(p)` for
any integer p, `stop`; `end` and `getCurrentSpeed` may occur too) on a freshly
constructed controller, on either target, the duty on line A and the duty on
line B both lie in [0, 255] and at most one of them is non-zero. -/
theorem lines_exclusive_of_reachable (esp32 : Bool) (ena : Int) (inA inB : Nat)
    (reverse : Bool) (ops : List Op) :
    ((0 ≤ dutyA (run esp32 ops (initial (mkEna esp32 ena inA inB reverse))) ∧
        dutyA (run esp32 ops (initial (mkEna esp32 ena inA inB reverse))) ≤ 255) ∧
      (0 ≤ dutyB (run esp32 ops (initial (mkEna esp32 ena inA inB reverse))) ∧
        dutyB (run esp32 ops (initial (mkEna esp32 ena inA inB reverse))) ≤ 255) ∧
      (dutyA (run esp32 ops (initial (mkEna esp32 ena inA inB reverse))) = 0 ∨
        dutyB (run esp32 ops (initial (mkEna esp32 ena inA inB reverse))) = 0)) ∧
    ((0 ≤ dutyA (run esp32 ops (initial (mkNoEna esp32 inA inB reverse))) ∧
        dutyA (run esp32 ops (initial (mkNoEna esp32 inA inB reverse))) ≤ 255) ∧
      (0 ≤ dutyB (run esp32 ops (initial (mkNoEna esp32 inA inB reverse))) ∧
        dutyB (run esp32 ops (initial (mkNoEna esp32 inA inB reverse))) ≤ 255) ∧
      (dutyA (run esp32 ops (initial (mkNoEna esp32 inA inB reverse))) = 0 ∨
        dutyB (run esp32 ops (initial (mkNoEna esp32 inA inB reverse))) = 0)) := by
  have h0 : ∀ m : DCMotorControllerHBridge, exclusiveDuties (lineDuties (initial m)) := by
    intro m
    show exclusiveDuties (0, 0)
    decide
  exact ⟨exclusiveDuties_run esp32 ops _ (h0 _), exclusiveDuties_run esp32 ops _ (h0 _)⟩

/-! ## Frame of `setSpeed` and `stop` -/

theorem construction_setSpeed (esp32 : Bool) (p : Int) (s : State) :
    construction (setSpeed esp32 p s).motor = construction s.motor := rfl

theorem construction_stop (esp32 : Bool) (s : State) :
    construction (stop esp32 s).motor = construction s.motor := rfl

/-- The configuration of a line: everything but its last output call. -/
theorem config_setSpeed (esp32 : Bool) (p : Int) (s : State) :
    ((setSpeed esp32 p s).hw.inA.mode = s.hw.inA.mode ∧
      (setSpeed esp32 p s).hw.inA.setup = s.hw.inA.setup ∧
      (setSpeed esp32 p s).hw.inA.attached = s.hw.inA.attached) ∧
    ((setSpeed esp32 p s).hw.inB.mode = s.hw.inB.mode ∧
      (setSpeed esp32 p s).hw.inB.setup = s.hw.inB.setup ∧
      (setSpeed esp32 p s).hw.inB.attached = s.hw.inB.attached) := by
  cases esp32 <;> cases hr : s.motor._reverse <;>
    by_cases h0 : constrain p (-100) 100 = 0 <;>
    by_cases hf : constrain p (-100) 100 ≥ 0 <;>
    simp [setSpeed, ledcWrite, analogWrite, digitalWrite, ena_guard_false, h0, hf, hr]

theorem config_stop (esp32 : Bool) (s : State) :
    ((stop esp32 s).hw.inA.mode = s.hw.inA.mode ∧
      (stop esp32 s).hw.inA.setup = s.hw.inA.setup ∧
      (stop esp32 s).hw.inA.attached = s.hw.inA.attached) ∧
    ((stop esp32 s).hw.inB.mode = s.hw.inB.mode ∧
      (stop esp32 s).hw.inB.setup = s.hw.inB.setup ∧
      (stop esp32 s).hw.inB.attached = s.hw.inB.attached) := by
  cases esp32 <;> simp [stop, ledcWrite, digitalWrite, ena_guard_false]

/-- C14: on either target, for every integer p and every state, `setSpeed(p)` and
`stop()` leave the enable-pin identifier, both control-pin identifiers, the
reverse flag, the two PWM channel numbers, the PWM frequency and the PWM
resolution as they were (the object changes in `_speed` only), and they leave
the configuration of both control lines as it was (only the output written to
them changes); `getCurrentSpeed()` returns the stored speed and changes
nothing. -/
theorem setSpeed_stop_frame (esp32 : Bool) (p : Int) (s : State) :
    ((setSpeed esp32 p s).motor._pin_ena = s.motor._pin_ena ∧
      (setSpeed esp32 p s).motor._pin_inA = s.motor._pin_inA ∧
      (setSpeed esp32 p s).motor._pin_inB = s.motor._pin_inB ∧
      (setSpeed esp32 p s).motor._reverse = s.motor._reverse ∧
      (setSpeed esp32 p s).motor._pwm_channel_inA = s.motor._pwm_channel_inA ∧
      (setSpeed esp32 p s).motor._pwm_channel_inB = s.motor._pwm_channel_inB ∧
      (setSpeed esp32 p s).motor._pwm_channel_freq = s.motor._pwm_channel_freq ∧
      (setSpeed esp32 p s).motor._pwm_channel_reso = s.motor._pwm_channel_reso) ∧
    ((stop esp32 s).motor._pin_ena = s.motor._pin_ena ∧
      (stop esp32 s).motor._pin_inA = s.motor._pin_inA ∧
      (stop esp32 s).motor._pin_inB = s.motor._pin_inB ∧
      (stop esp32 s).motor._reverse = s.motor._reverse ∧
      (stop esp32 s).motor._pwm_channel_inA = s.motor._pwm_channel_inA ∧
      (stop esp32 s).motor._pwm_channel_inB = s.motor._pwm_channel_inB ∧
      (stop esp32 s).motor._pwm_channel_freq = s.motor._pwm_channel_freq ∧
      (stop esp32 s).motor._pwm_channel_reso = s.motor._pwm_channel_reso) ∧
    (construction (setSpeed esp32 p s).motor = construction s.motor ∧
      construction (stop esp32 s).motor = construction s.motor) ∧
    (((setSpeed esp32 p s).hw.inA.mode = s.hw.inA.mode ∧
        (setSpeed esp32 p s).hw.inA.setup = s.hw.inA.setup ∧
        (setSpeed esp32 p s).hw.inA.attached = s.hw.inA.attached) ∧
      ((setSpeed esp32 p s).hw.inB.mode = s.hw.inB.mode ∧
        (setSpeed esp32 p s).hw.inB.setup = s.hw.inB.setup ∧
        (setSpeed esp32 p s).hw.inB.attached = s.hw.inB.attached)) ∧
    (((stop esp32 s).hw.inA.mode = s.hw.inA.mode ∧
        (stop esp32 s).hw.inA.setup = s.hw.inA.setup ∧
        (stop esp32 s).hw.inA.attached = s.hw.inA.attached) ∧
      ((stop esp32 s).hw.inB.mode = s.hw.inB.mode ∧
        (stop esp32 s).hw.inB.setup = s.hw.inB.setup ∧
        (stop esp32 s).hw.inB.attached = s.hw.inB.attached)) ∧
    (getCurrentSpeed s = s.motor._speed ∧ step esp32 s Op.getCurrentSpeed = s) :=
  ⟨⟨rfl, rfl, rfl, rfl, rfl, rfl, rfl, rfl⟩, ⟨rfl, rfl, rfl, rfl, rfl, rfl, rfl, rfl⟩,
   ⟨construction_setSpeed esp32 p s, construction_stop esp32 s⟩,
   config_setSpeed esp32 p s, config_stop esp32 s, ⟨rfl, rfl⟩⟩

/-! ## The duty magnitude -/

theorem constrain_eq_zero_iff (p : Int) : constrain p (-100) 100 = 0 ↔ p = 0 := by
  rw [constrain_eq_max_min]; omega

/-- The magnitude on the lines after `setSpeed(p)` is the computed `pwm_value`. -/
theorem dutyMagnitude_setSpeed (esp32 : Bool) (p : Int) (s : State) :
    dutyMagnitude (setSpeed esp32 p s) = pwmValue p := by
  have h := lineDuties_setSpeed esp32 p s
  have hb := pwmValue_bounds p
  have hA : dutyA (setSpeed esp32 p s) = _ := congrArg Prod.fst h
  have hB : dutyB (setSpeed esp32 p s) = _ := congrArg Prod.snd h
  unfold dutyMagnitude
  rw [hA, hB]
  by_cases h0 : constrain p (-100) 100 = 0
  · have hp : p = 0 := (constrain_eq_zero_iff p).mp h0
    subst hp
    simp [h0, pwmValue_zero]
  · simp only [h0, if_false]
    split_ifs <;> simp <;> omega

theorem abs_eq_abs (x : Int) : abs x = |x| := by
  unfold abs
  split_ifs with h
  · exact (abs_of_pos h).symm
  · exact (abs_of_nonpos (not_lt.mp h)).symm

/-- C15: on either target and from every state, with c = max(-100, min(100, p)),
the duty magnitude `setSpeed(p)` puts on the lines is (|c| * 255) / 100 with
truncating integer division, the Arduino `map` of |c| from [0, 100] to [0, 255];
50 gives 127, 75 gives 191, 40 gives 102, 1 gives 2 and 100 gives 255. -/
theorem setSpeed_duty_is_arduino_map :
    (∀ (esp32 : Bool) (p : Int) (s : State),
        dutyMagnitude (setSpeed esp32 p s) = Int.tdiv (|max (-100) (min 100 p)| * 255) 100 ∧
        dutyMagnitude (setSpeed esp32 p s) = map |max (-100) (min 100 p)| 0 100 0 255) ∧
    (∀ (esp32 : Bool) (s : State),
        dutyMagnitude (setSpeed esp32 50 s) = 127 ∧
        dutyMagnitude (setSpeed esp32 75 s) = 191 ∧
        dutyMagnitude (setSpeed esp32 40 s) = 102 ∧
        dutyMagnitude (setSpeed esp32 1 s) = 2 ∧
        dutyMagnitude (setSpeed esp32 100 s) = 255) := by
  refine ⟨fun esp32 p s => ?_, fun esp32 s => ?_⟩
  · have h : dutyMagnitude (setSpeed esp32 p s) = map |max (-100) (min 100 p)| 0 100 0 255 := by
      rw [dutyMagnitude_setSpeed]
      unfold pwmValue
      rw [abs_eq_abs, constrain_eq_max_min]
    refine ⟨?_, h⟩
    rw [h]
    unfold map
    simp
  · simp only [dutyMagnitude_setSpeed]
    decide

/-- C16: on either target, for every integer p and every state (hence either
reverse flag), both control lines are at zero after `setSpeed(p)` exactly when
p = 0; otherwise exactly one line carries a strictly positive duty.  The
smallest non-zero requests, 1 and -1, give magnitude 2. -/
theorem setSpeed_lines_zero_iff (esp32 : Bool) (p : Int) (s : State) :
    (lineDuties (setSpeed esp32 p s) = (0, 0) ↔ p = 0) ∧
    ((p = 0 ∧ dutyA (setSpeed esp32 p s) = 0 ∧ dutyB (setSpeed esp32 p s) = 0) ∨
      (p ≠ 0 ∧
        ((0 < dutyA (setSpeed esp32 p s) ∧ dutyB (setSpeed esp32 p s) = 0) ∨
          (dutyA (setSpeed esp32 p s) = 0 ∧ 0 < dutyB (setSpeed esp32 p s))))) ∧
    dutyMagnitude (setSpeed esp32 1 s) = 2 ∧
    dutyMagnitude (setSpeed esp32 (-1) s) = 2 := by
  have h := lineDuties_setSpeed esp32 p s
  have hA : dutyA (setSpeed esp32 p s) = _ := congrArg Prod.fst h
  have hB : dutyB (setSpeed esp32 p s) = _ := congrArg Prod.snd h
  have hmag : dutyMagnitude (setSpeed esp32 1 s) = 2 ∧
      dutyMagnitude (setSpeed esp32 (-1) s) = 2 := by
    simp only [dutyMagnitude_setSpeed]; decide
  by_cases hp : p = 0
  · have h0 : constrain p (-100) 100 = 0 := (constrain_eq_zero_iff p).mpr hp
    simp only [h0, if_true] at h hA hB
    exact ⟨⟨fun _ => hp, fun _ => h⟩, Or.inl ⟨hp, hA, hB⟩, hmag⟩
  · have h0 : ¬ constrain p (-100) 100 = 0 := fun hc => hp ((constrain_eq_zero_iff p).mp hc)
    have hpos := pwmValue_pos p hp
    simp only [h0, if_false] at h hA hB
    refine ⟨⟨fun hz => ?_, fun hz => absurd hz hp⟩, Or.inr ⟨hp, ?_⟩, hmag⟩
    · exfalso
      have h1 : dutyA (setSpeed esp32 p s) = 0 := congrArg Prod.fst hz
      have h2 : dutyB (setSpeed esp32 p s) = 0 := congrArg Prod.snd hz
      rw [hA] at h1
      rw [hB] at h2
      split_ifs at h1 h2 <;> dsimp only at h1 h2 <;> omega
    · rw [hA, hB]
      split_ifs
      · left; simp; omega
      · right; simp; omega

/-! ## Negative requests -/

/-- C4: for p < 0, on either target and from every state, the duties of
`setSpeed(p)` are those of `setSpeed(-p)` with line A and line B exchanged.
Explicitly: the magnitude min(100, -p) * 255 / 100 (rounded down, strictly
positive) is what `setSpeed(-p)` puts on line A of a controller that is not
reversed (on line B of a reversed one) with 0 on the other line, and
`setSpeed(p)` puts that same magnitude on line B of a controller that is not
reversed (on line A of a reversed one) with 0 on the other line.
`getCurrentSpeed()` then reports the negative value `max(-100, p)`, the opposite
of what it reports after `setSpeed(-p)`.  On the bench controller, not reversed,
`setSpeed(-75)` gives 0 on line A, 191 on line B and reports -75. -/
theorem setSpeed_neg_mirrors (esp32 : Bool) (p : Int) (s : State) (hneg : p < 0) :
    lineDuties (setSpeed esp32 p s) = Prod.swap (lineDuties (setSpeed esp32 (-p) s)) ∧
    lineDuties (setSpeed esp32 (-p) s) =
      (if s.motor._reverse then (0, pwmValue (-p)) else (pwmValue (-p), 0)) ∧
    lineDuties (setSpeed esp32 p s) =
      (if s.motor._reverse then (pwmValue (-p), 0) else (0, pwmValue (-p))) ∧
    (pwmValue (-p) = min 100 (-p) * 255 / 100 ∧ 0 < pwmValue (-p)) ∧
    (getCurrentSpeed (setSpeed esp32 p s) = max (-100) p ∧
      getCurrentSpeed (setSpeed esp32 p s) < 0 ∧
      getCurrentSpeed (setSpeed esp32 p s) = - getCurrentSpeed (setSpeed esp32 (-p) s)) ∧
    (lineDuties (setSpeed esp32 (-75) (bench esp32 false)) = (0, 191) ∧
      lineDuties (setSpeed esp32 75 (bench esp32 false)) = (191, 0) ∧
      getCurrentSpeed (setSpeed esp32 (-75) (bench esp32 false)) = -75) := by
  have hc : constrain p (-100) 100 = max (-100) p := by
    rw [constrain_eq_max_min]; omega
  have hc2 : constrain (-p) (-100) 100 = - max (-100) p := by
    rw [constrain_eq_max_min]; omega
  have hpw : pwmValue p = pwmValue (-p) := by
    rw [pwmValue_eq, pwmValue_eq, neg_neg, max_comm]
  have hval : pwmValue (-p) = min 100 (-p) * 255 / 100 := by
    rw [pwmValue_eq, neg_neg]
    have hm : max (-p) p = -p := by omega
    rw [hm]
  have hpos : 0 < pwmValue (-p) := by
    have := pwmValue_pos (-p) (by omega)
    omega
  have h1 : ¬ (max (-100) p = 0) := by omega
  have h2 : ¬ (max (-100) p ≥ 0) := by omega
  have h3 : ¬ (- max (-100) p = 0) := by omega
  have h4 : - max (-100) p ≥ 0 := by omega
  have hneg_side : lineDuties (setSpeed esp32 p s) =
      (if s.motor._reverse then (pwmValue (-p), 0) else (0, pwmValue (-p))) := by
    rw [lineDuties_setSpeed, hc, hpw]
    cases s.motor._reverse <;> simp [h1, h2]
  have hpos_side : lineDuties (setSpeed esp32 (-p) s) =
      (if s.motor._reverse then (0, pwmValue (-p)) else (pwmValue (-p), 0)) := by
    rw [lineDuties_setSpeed, hc2]
    cases s.motor._reverse <;> simp [h3, h4]
  refine ⟨?_, hpos_side, hneg_side, ⟨hval, hpos⟩, ⟨?_, ?_, ?_⟩, ?_⟩
  · rw [hneg_side, hpos_side]
    cases s.motor._reverse <;> rfl
  · show (setSpeed esp32 p s).motor._speed = _
    rw [speed_setSpeed, hc]
  · show (setSpeed esp32 p s).motor._speed < 0
    rw [speed_setSpeed, hc]; omega
  · show (setSpeed esp32 p s).motor._speed = - (setSpeed esp32 (-p) s).motor._speed
    rw [speed_setSpeed, speed_setSpeed, hc, hc2]; omega
  · cases esp32 <;> decide

/-- Witness for C4: the benchmark sketch's `setSpeed(-75)` on the bench
controller, not reversed: 0 on line A, 191 on line B, speed -75, against 191 on
line A and 0 on line B for `setSpeed(75)`. -/
theorem setSpeed_neg_mirrors_witness :
    ((-75 : Int) < 0) ∧
    (lineDuties (setSpeed false (-75) (bench false false)) =
        Prod.swap (lineDuties (setSpeed false (- -75) (bench false false))) ∧
      lineDuties (setSpeed false (- -75) (bench false false)) =
        (if (bench false false).motor._reverse then (0, pwmValue (- -75))
          else (pwmValue (- -75), 0)) ∧
      lineDuties (setSpeed false (-75) (bench false false)) =
        (if (bench false false).motor._reverse then (pwmValue (- -75), 0)
          else (0, pwmValue (- -75))) ∧
      (pwmValue (- -75) = min 100 (- -75) * 255 / 100 ∧ 0 < pwmValue (- -75)) ∧
      (getCurrentSpeed (setSpeed false (-75) (bench false false)) = max (-100) (-75) ∧
        getCurrentSpeed (setSpeed false (-75) (bench false false)) < 0 ∧
        getCurrentSpeed (setSpeed false (-75) (bench false false)) =
          - getCurrentSpeed (setSpeed false (- -75) (bench false false))) ∧
      (lineDuties (setSpeed false (-75) (bench false false)) = (0, 191) ∧
        lineDuties (setSpeed false 75 (bench false false)) = (191, 0) ∧
        getCurrentSpeed (setSpeed false (-75) (bench false false)) = -75)) ∧
    (dutyA (setSpeed false (-75) (bench false false)) = 0 ∧
      dutyB (setSpeed false (-75) (bench false false)) = 191 ∧
      pwmValue 75 = 191) :=
  ⟨by decide, setSpeed_neg_mirrors false (-75) (bench false false) (by decide), by decide⟩

/-- C17: for all integers p and q with |p| <= |q|, on either target and from any
states, the duty magnitude written by `setSpeed(p)` is at most the one written
by `setSpeed(q)`, which is at most 255 and equal to 255 whenever |q| >= 100. -/
theorem dutyMagnitude_mono_saturating (esp32 : Bool) (p q : Int) (s t : State)
    (hpq : |p| ≤ |q|) :
    dutyMagnitude (setSpeed esp32 p s) ≤ dutyMagnitude (setSpeed esp32 q t) ∧
    dutyMagnitude (setSpeed esp32 q t) ≤ 255 ∧
    (100 ≤ |q| → dutyMagnitude (setSpeed esp32 q t) = 255) := by
  rw [dutyMagnitude_setSpeed, dutyMagnitude_setSpeed, pwmValue_eq, pwmValue_eq]
  rw [abs_eq_max_neg, abs_eq_max_neg] at hpq
  rw [abs_eq_max_neg]
  refine ⟨?_, ?_, fun h => ?_⟩ <;> omega

/-- Witness for C17: a request of 40 against an over-range request of -150. -/
theorem dutyMagnitude_mono_saturating_witness :
    (|(40 : Int)| ≤ |(-150 : Int)|) ∧
    (dutyMagnitude (setSpeed false 40 (bench false false)) ≤
        dutyMagnitude (setSpeed false (-150) (bench false true)) ∧
      dutyMagnitude (setSpeed false (-150) (bench false true)) ≤ 255 ∧
      (100 ≤ |(-150 : Int)| → dutyMagnitude (setSpeed false (-150) (bench false true)) = 255)) :=
  ⟨by decide,
   dutyMagnitude_mono_saturating false 40 (-150) (bench false false) (bench false true)
     (by decide)⟩

/-! ## History independence -/

theorem constrain_idem (p : Int) :
    constrain (constrain p (-100) 100) (-100) 100 = constrain p (-100) 100 := by
  unfold constrain
  split_ifs <;> omega

/-- The state `setSpeed` leaves depends on its argument only through the
constrained value. -/
theorem setSpeed_constrain (esp32 : Bool) (p : Int) (s : State) :
    setSpeed esp32 (constrain p (-100) 100) s = setSpeed esp32 p s := by
  simp only [setSpeed, constrain_idem]

theorem setSpeed_idem (esp32 : Bool) (p : Int) (s : State) :
    setSpeed esp32 p (setSpeed esp32 p s) = setSpeed esp32 p s := by
  cases esp32 <;> cases hr : s.motor._reverse <;>
    by_cases h0 : constrain p (-100) 100 = 0 <;>
    by_cases hf : constrain p (-100) 100 ≥ 0 <;>
    simp [setSpeed, ledcWrite, analogWrite, digitalWrite, ena_guard_false, h0, hf, hr]

theorem out_setSpeed_of_construction (esp32 : Bool) (p : Int) (s1 s2 : State)
    (h : construction s1.motor = construction s2.motor) :
    (setSpeed esp32 p s1).motor = (setSpeed esp32 p s2).motor ∧
    (setSpeed esp32 p s1).hw.inA.out = (setSpeed esp32 p s2).hw.inA.out ∧
    (setSpeed esp32 p s1).hw.inB.out = (setSpeed esp32 p s2).hw.inB.out := by
  obtain ⟨m1, hw1⟩ := s1
  obtain ⟨m2, hw2⟩ := s2
  cases m1
  cases m2
  simp only [construction, DCMotorControllerHBridge.mk.injEq] at h
  obtain ⟨h1, h2, h3, h4, h5, -, h7, h8, h9⟩ := h
  subst h1 h2 h3 h4 h5 h7 h8 h9
  rename_i r _ _ _
  cases esp32 <;> cases r <;>
    by_cases h0 : constrain p (-100) 100 = 0 <;>
    by_cases hf : constrain p (-100) 100 ≥ 0 <;>
    simp [setSpeed, ledcWrite, analogWrite, digitalWrite, ena_guard_false, h0, hf]

/-- C18: on either target, for every integer p and any two states s1, s2 of a
controller with the same construction parameters, `setSpeed(p)` from s1 and from
s2 leaves the same controller object, the same output call on line A and on
line B, the same duties and the same `getCurrentSpeed()`; `setSpeed(p)` twice
leaves the same state as once, and `setSpeed(p)` leaves the same state as
`setSpeed` of the clamped value max(-100, min(100, p)). -/
theorem setSpeed_history_independent (esp32 : Bool) (p : Int) (s1 s2 : State)
    (hsame : construction s1.motor = construction s2.motor) :
    ((setSpeed esp32 p s1).motor = (setSpeed esp32 p s2).motor ∧
      (setSpeed esp32 p s1).hw.inA.out = (setSpeed esp32 p s2).hw.inA.out ∧
      (setSpeed esp32 p s1).hw.inB.out = (setSpeed esp32 p s2).hw.inB.out ∧
      lineDuties (setSpeed esp32 p s1) = lineDuties (setSpeed esp32 p s2) ∧
      getCurrentSpeed (setSpeed esp32 p s1) = getCurrentSpeed (setSpeed esp32 p s2)) ∧
    setSpeed esp32 p (setSpeed esp32 p s1) = setSpeed esp32 p s1 ∧
    setSpeed esp32 p s1 = setSpeed esp32 (max (-100) (min 100 p)) s1 := by
  obtain ⟨hm, hA, hB⟩ := out_setSpeed_of_construction esp32 p s1 s2 hsame
  refine ⟨⟨hm, hA, hB, ?_, ?_⟩, setSpeed_idem esp32 p s1, ?_⟩
  · simp only [lineDuties, dutyA, dutyB, Line.duty, hA, hB]
  · simp only [getCurrentSpeed, hm]
  · rw [← constrain_eq_max_min, setSpeed_constrain]

/-- Witness for C18: two different states of the bench controller, the one
right after `begin()` (speed 0, both lines at 0) and the one after a further
`setSpeed(80)` (speed 80, line A at 204); `setSpeed(-75)` from either leaves
speed -75, 0 on line A and 191 on line B. -/
theorem setSpeed_history_independent_witness :
    (construction (bench false false).motor =
        construction (setSpeed false 80 (bench false false)).motor ∧
      bench false false ≠ setSpeed false 80 (bench false false) ∧
      lineDuties (setSpeed false 80 (bench false false)) = (204, 0) ∧
      getCurrentSpeed (setSpeed false 80 (bench false false)) = 80) ∧
    (((setSpeed false (-75) (bench false false)).motor =
          (setSpeed false (-75) (setSpeed false 80 (bench false false))).motor ∧
        (setSpeed false (-75) (bench false false)).hw.inA.out =
          (setSpeed false (-75) (setSpeed false 80 (bench false false))).hw.inA.out ∧
        (setSpeed false (-75) (bench false false)).hw.inB.out =
          (setSpeed false (-75) (setSpeed false 80 (bench false false))).hw.inB.out ∧
        lineDuties (setSpeed false (-75) (bench false false)) =
          lineDuties (setSpeed false (-75) (setSpeed false 80 (bench false false))) ∧
        getCurrentSpeed (setSpeed false (-75) (bench false false)) =
          getCurrentSpeed (setSpeed false (-75) (setSpeed false 80 (bench false false)))) ∧
      setSpeed false (-75) (setSpeed false (-75) (bench false false)) =
        setSpeed false (-75) (bench false false) ∧
      setSpeed false (-75) (bench false false) =
        setSpeed false (max (-100) (min 100 (-75))) (bench false false)) ∧
    (lineDuties (setSpeed false (-75) (setSpeed false 80 (bench false false))) = (0, 191) ∧
      getCurrentSpeed (setSpeed false (-75) (setSpeed false 80 (bench false false))) = -75) :=
  ⟨⟨by decide, by decide, by decide, by decide⟩,
   setSpeed_history_independent false (-75) (bench false false)
     (setSpeed false 80 (bench false false)) (by decide),
   by decide⟩

/-! ## The two build targets -/

/-- C19: for every integer p and reverse flag, whatever the rest of the two
objects and the prior hardware states are, the duty pair (line A, line B) that
the `ledcWrite` branch of `setSpeed` produces equals the pair the generic branch
produces (`analogWrite` values, `digitalWrite` LOW read as duty 0); and both
variants of `stop()` produce (0, 0). -/
theorem targets_agree (p : Int) (reverse : Bool) (m1 m2 : DCMotorControllerHBridge)
    (hw1 hw2 : Hardware) :
    lineDuties (setSpeed true p { motor := { m1 with _reverse := reverse }, hw := hw1 }) =
      lineDuties (setSpeed false p { motor := { m2 with _reverse := reverse }, hw := hw2 }) ∧
    lineDuties (stop true { motor := { m1 with _reverse := reverse }, hw := hw1 }) = (0, 0) ∧
    lineDuties (stop false { motor := { m2 with _reverse := reverse }, hw := hw2 }) = (0, 0) := by
  refine ⟨?_, lineDuties_stop true _, lineDuties_stop false _⟩
  rw [lineDuties_setSpeed, lineDuties_setSpeed]

end HBridge
